import Mathlib

/-!
Shallow embedding of the onoregleb/parser web-scraper core, together with
proofs about its control loops and extraction functions.

Conventions used throughout:
* Python dict keys that may be absent are modelled as `Option`; `d.get(k, v)`
  becomes `o.getD v`, and Python truthiness of a value (`if d.get(k):`) is
  modelled explicitly (`none` and `some 0` / `[]` are falsy).
* Python float division on integer minor-currency units is modelled exactly
  in `ℚ`.
* Python `set` accumulation followed by `list(...)` is determinized as
  `List.dedup` of the insertion order; only the underlying set and its
  cardinality are ever used by the control flow being verified.
* Network and DOM effects are passed in as explicit oracles (functions from
  the attempt / iteration / page number to the observed data).
-/

namespace Scraper

/-! ## Data model of raw Zara API product objects
    (`src/zara_api_parser.py`, `src/zara_parser/api.py`) -/

/-- One entry of a color's `xmedia` list: a media descriptor with a `type`
tag and a `url` template. -/
structure ApiMedia where
  mtype : String
  url : String
  deriving DecidableEq

/-- One entry of `detail.colors` of a raw API product object. A missing
`price` key is `none`. -/
structure ApiColor where
  cname : Option String
  reference : Option String
  price : Option Int
  availability : Option String
  xmedia : List ApiMedia
  deriving DecidableEq

/-- The `seo` sub-object of a raw API product object. -/
structure ApiSeo where
  keyword : Option String
  seoProductId : Option String
  discernProductId : Option Int
  deriving DecidableEq

/-- The `detail` sub-object of a raw API product object. -/
structure ApiDetail where
  displayReference : Option String
  colors : List ApiColor
  deriving DecidableEq

/-- A raw product object as delivered inside `commercialComponents` of the
category-listing API response. `typ`/`kind` model the `type`/`kind` keys. -/
structure ApiProduct where
  pid : Option Int
  pname : Option String
  price : Option Int
  typ : Option String
  kind : Option String
  reference : Option String
  sectionName : Option String
  familyName : Option String
  seo : Option ApiSeo
  detail : Option ApiDetail
  description : Option String
  deriving DecidableEq

/-- The normalized record built by `ZaraAPIParser.parse_product`. -/
structure ParsedProduct where
  url : String
  pid : Option Int
  pname : String
  reference : String
  display_reference : String
  price : ℚ
  currency : String
  sectionName : String
  familyName : String
  color : String
  color_reference : String
  availability : String
  images : List String
  description : String

/-- The intermediate `color_info` dict built by `parse_product` from the
first color variant (both embodiments, identical code). -/
structure ColorInfo where
  cname : String
  reference : String
  price : ℚ
  availability : String

/-- Python `f"{x}"` applied to an optional integer (`None` prints as
`"None"`). -/
def pyShow : Option Int → String
  | none => "None"
  | some i => toString i

/-- Embedding of `ZaraAPIParser.build_product_url` (identical in both embodiments):
`https://www.zara.com/{country}/{lang}/{seo_keyword}-p{seo_product_id}.html?v1={product_id}`. -/
def build_product_url (country lang seoKeyword seoProductId productId : String) : String :=
  "https://www.zara.com/" ++ country ++ "/" ++ lang ++ "/" ++ seoKeyword ++
    "-p" ++ seoProductId ++ ".html?v1=" ++ productId

/-- Top-level price of `parse_product` in `src/zara_api_parser.py` line 215:
`product_data.get('price', 0) / 100 if product_data.get('price') else 0`
(the guard tests Python truthiness, so a missing key or a raw `0` yield `0`). -/
def topPriceV1 (p : ApiProduct) : ℚ :=
  match p.price with
  | some r => if r = 0 then 0 else (r : ℚ) / 100
  | none => 0

/-- Top-level price of `parse_product` in `src/zara_parser/api.py` line 199:
`product_data.get('price', 0) / 100` (no truthiness guard). -/
def topPriceV2 (p : ApiProduct) : ℚ :=
  ((p.price.getD 0 : ℤ) : ℚ) / 100

/-- The `color_info` dict construction shared by both `parse_product`
embodiments: `first_color.get('price', price) / 100`, where `price` is the
already-divided top-level price. -/
def mkColorInfo (first : ApiColor) (price : ℚ) : ColorInfo :=
  { cname := first.cname.getD ""
    reference := first.reference.getD ""
    price := (match first.price with
              | some c => (c : ℚ)
              | none => price) / 100
    availability := first.availability.getD "unknown" }

/-- The `detail` sub-object with Python's `.get('detail', {})` default. -/
def detailOf (p : ApiProduct) : ApiDetail :=
  p.detail.getD { displayReference := none, colors := [] }

/-- The `color_info` of `parse_product`, given the already-computed top-level
price: built from the first color when `detail.colors` is non-empty,
otherwise the empty dict (modelled as `none`). -/
def colorInfoOf (p : ApiProduct) (price : ℚ) : Option ColorInfo :=
  match (detailOf p).colors with
  | [] => none
  | first :: _ => some (mkColorInfo first price)

/-- Image list of `parse_product`: all `xmedia` entries of the first color
whose `type` is `"image"`, with `{width}` replaced by `1920` in the url. -/
def imagesOf (p : ApiProduct) : List String :=
  match (detailOf p).colors with
  | [] => []
  | first :: _ =>
      (first.xmedia.filter (fun m => m.mtype = "image")).map
        (fun m => m.url.replace "\x7bwidth\x7d" "1920")

/-- The record assembled at the end of `parse_product` (identical dict
literal in both embodiments), parameterized by the already-computed
top-level price. -/
def assembleProduct (p : ApiProduct) (country lang : String) (price : ℚ) : ParsedProduct :=
  let seo := p.seo.getD { keyword := none, seoProductId := none, discernProductId := none }
  let discernProductId := seo.discernProductId <|> p.pid
  let colorInfo := colorInfoOf p price
  { url := build_product_url country lang (seo.keyword.getD "") (seo.seoProductId.getD "")
      (pyShow discernProductId)
    pid := p.pid
    pname := p.pname.getD ""
    reference := p.reference.getD ""
    display_reference := (detailOf p).displayReference.getD (p.reference.getD "")
    price := price
    currency := "KZT"
    sectionName := p.sectionName.getD ""
    familyName := p.familyName.getD ""
    color := (colorInfo.map (·.cname)).getD ""
    color_reference := (colorInfo.map (·.reference)).getD ""
    availability := (colorInfo.map (·.availability)).getD "unknown"
    images := imagesOf p
    description := p.description.getD "" }

/-- Embedding of `ZaraAPIParser.parse_product` of `src/zara_api_parser.py` (lines
201-280): skips objects whose `type` is not `Product` or whose `kind` is
`Marketing` (returning the empty dict, modelled as `none`), otherwise emits
the normalized record. -/
def parse_productV1 (p : ApiProduct) (country lang : String) : Option ParsedProduct :=
  if p.typ ≠ some "Product" then none
  else if p.kind = some "Marketing" then none
  else some (assembleProduct p country lang (topPriceV1 p))

/-- Embedding of `ZaraAPIParser.parse_product` of `src/zara_parser/api.py` (lines
195-260): no type/kind guard, always emits the record. -/
def parse_productV2 (p : ApiProduct) (country lang : String) : ParsedProduct :=
  assembleProduct p country lang (topPriceV2 p)

/-! ## Category listing extraction
    (`ZaraAPIParser.get_category_products`, both embodiments) -/

/-- One entry of a product group's `elements`/`products` list, carrying the
`commercialComponents`. -/
structure ApiItem where
  commercialComponents : List ApiProduct

/-- One product group of the listing response. -/
structure ApiGroup where
  elements : List ApiItem
  products : List ApiItem

/-- The category-listing API response body (only the `productGroups` key is
read; a response without it is `none`). -/
structure ApiListing where
  productGroups : Option (List ApiGroup)

/-- Selection `items = elements if elements else products` (both embodiments). -/
def groupItems (g : ApiGroup) : List ApiItem :=
  if g.elements.isEmpty then g.products else g.elements

/-- The filter of `src/zara_api_parser.py` lines 117-125: keep a commercial
component only when `product.get('type', '') == 'Product'` and
`product.get('kind', '') != 'Marketing'`. -/
def keepProduct (p : ApiProduct) : Bool :=
  p.typ.getD "" = "Product" && !(p.kind.getD "" = "Marketing")

/-- Accumulation loop of `get_category_products` in `src/zara_api_parser.py`
(lines 101-125): nested iteration over groups, items and commercial
components, appending only components that pass `keepProduct`. -/
def collectProductsV1 (data : ApiListing) : List ApiProduct :=
  match data.productGroups with
  | none => []
  | some groups =>
      groups.foldl (fun acc g =>
        (groupItems g).foldl (fun acc item =>
          item.commercialComponents.foldl (fun acc p =>
            if keepProduct p then acc ++ [p] else acc) acc) acc) []

/-- Accumulation loop of `get_category_products` in `src/zara_parser/api.py`
(lines 113-129): same nested iteration, appending every commercial
component unconditionally. -/
def collectProductsV2 (data : ApiListing) : List ApiProduct :=
  match data.productGroups with
  | none => []
  | some groups =>
      groups.foldl (fun acc g =>
        (groupItems g).foldl (fun acc item =>
          item.commercialComponents.foldl (fun acc p =>
            acc ++ [p]) acc) acc) []

/-- Truncation `if self.items_limit: all_products = all_products[:self.items_limit]`
(both embodiments). `items_limit = 0` models the falsy (`None`/`0`)
configuration, meaning no truncation. -/
def applyItemsLimit (limit : Nat) (l : List ApiProduct) : List ApiProduct :=
  if limit ≠ 0 then l.take limit else l

/-- Result of `get_category_products` in `src/zara_api_parser.py` on a
successfully decoded listing response. -/
def get_category_productsV1 (data : ApiListing) (limit : Nat) : List ApiProduct :=
  applyItemsLimit limit (collectProductsV1 data)

/-- Result of `get_category_products` in `src/zara_parser/api.py` on a
successfully decoded listing response. -/
def get_category_productsV2 (data : ApiListing) (limit : Nat) : List ApiProduct :=
  applyItemsLimit limit (collectProductsV2 data)

/-- Plain flattening of all commercial components of a listing (the
spec-side description: groups, then `elements`-or-`products`, then
`commercialComponents`, in order). -/
def flattenComponents (data : ApiListing) : List ApiProduct :=
  match data.productGroups with
  | none => []
  | some groups =>
      groups.flatMap (fun g => (groupItems g).flatMap (·.commercialComponents))

/-! ## Progress checkpointing and the multi-category orchestrator
    (`src/zara_parser/api.py` lines 365-384 and 447-530) -/

/-- The on-disk progress checkpoint `{current_index, categories, products}`
(the timestamp is never read back). -/
structure Checkpoint (Cat Prod : Type) where
  current_index : Nat
  categories : List Cat
  products : List Prod

/-- Embedding of `load_progress` (`src/zara_parser/api.py` lines 365-384): a readable
checkpoint yields its `(current_index, categories, products)`; a missing or
unreadable file (modelled as `none`) yields `(0, [], [])`. -/
def load_progress {Cat Prod : Type} (cp : Option (Checkpoint Cat Prod)) :
    Nat × List Cat × List Prod :=
  match cp with
  | some c => (c.current_index, c.categories, c.products)
  | none => (0, [], [])

/-- The category loop of `parse_multiple_categories`
(`for i in range(start_index, len(categories))`), with the per-category
results given by the oracle `parseCat`; each category's products are
appended to the accumulator (an empty result appends nothing either way). -/
def categoryLoop {Cat Prod : Type} (parseCat : Cat → List Prod)
    (cats : List Cat) (start : Nat) (acc : List Prod) : List Prod :=
  (cats.drop start).foldl (fun a c => a ++ parseCat c) acc

/-- Embedding of `parse_multiple_categories` (`src/zara_parser/api.py` lines 447-530):
when `resume` is set, `start_index`, the category list and the accumulated
products are all replaced by the result of `load_progress`; then the
category loop runs from `start_index`. -/
def parse_multiple_categories {Cat Prod : Type} (categories : List Cat)
    (resume : Bool) (cp : Option (Checkpoint Cat Prod))
    (parseCat : Cat → List Prod) : List Prod :=
  let s := if resume then load_progress cp else (0, categories, ([] : List Prod))
  categoryLoop parseCat s.2.1 s.1 s.2.2

/-! ## Selenium product-page extractor
    (`WebDriverInterface.parse_elements`, `src/scripts/interfaces.py`
    lines 74-107) -/

/-- What the driver finds on one product page: the root `content` container
may be missing (the record is skipped), otherwise images and the optional
price / short description are read. -/
structure WDPage where
  images : List String
  price : Option String
  short_description : Option String

/-- A record emitted by `WebDriverInterface.parse_elements`. -/
structure WDRecord where
  url : String
  images : List String
  price : Option String
  short_description : Option String
  category : String
  gender : String

/-- Embedding of `WebDriverInterface.parse_elements`: iterates over `links[:10]`; a link
whose page yields no content container (`content link = none`) is skipped,
every other link contributes one record. -/
def parse_elementsWD (content : String → Option WDPage) (links : List String)
    (category gender : String) : List WDRecord :=
  (links.take 10).foldl (fun data link =>
    match content link with
    | none => data
    | some pg => data ++ [{ url := link, images := pg.images, price := pg.price,
                            short_description := pg.short_description,
                            category := category, gender := gender }]) []

/-! ## Navigation Guard (`safe_goto`)
    (`PlaywrightInterface.safe_goto`, `src/scripts/interfaces.py` lines
    142-200, and `ZaraPlaywrightInterface.safe_goto`, lines 329-378) -/

/-- What one navigation attempt observes: whether `page.goto` raised,
the response (`none` models a falsy/absent response object) with its HTTP
status, whether the redirect check of lines 166-169 fires (current URL
without `items.aspx` while the target URL carries `page=`), and whether the
content-readiness `wait_for_selector` of lines 172-175 succeeds. -/
structure AttemptOutcome where
  gotoRaises : Bool
  response : Option Nat
  redirected : Bool
  contentReady : Bool

/-- Retry loop body of `PlaywrightInterface.safe_goto`, for the remaining
attempts `r` out of `max_retries = 3`, attempt index `a`, and `w` 60-second
rate-limit waits performed so far. On a 429 status the guard sleeps 60s and
retries (consuming the attempt); on any other status `>= 400` it returns
`False`; on a detected redirect it returns `False`; if the readiness wait
fails the attempt falls to the exception handler and retries; otherwise it
returns `True`. The result pairs the boolean with the number of 60-second
waits. -/
def safeGotoAux (out : Nat → AttemptOutcome) (a w : Nat) : Nat → Bool × Nat
  | 0 => (false, w)
  | r + 1 =>
    let o := out a
    if o.gotoRaises then safeGotoAux out (a + 1) w r
    else
      match o.response with
      | some s =>
        if s = 429 then safeGotoAux out (a + 1) (w + 1) r
        else if 400 ≤ s then (false, w)
        else if o.redirected then (false, w)
        else if o.contentReady then (true, w)
        else safeGotoAux out (a + 1) w r
      | none =>
        if o.redirected then (false, w)
        else if o.contentReady then (true, w)
        else safeGotoAux out (a + 1) w r

/-- Embedding of `PlaywrightInterface.safe_goto` with its injected attempt outcomes:
3 attempts, starting with no waits performed. -/
def safe_goto (out : Nat → AttemptOutcome) : Bool × Nat :=
  safeGotoAux out 0 0 3

/-- Retry loop body of `ZaraPlaywrightInterface.safe_goto` (lines 339-378):
same status handling, but no redirect check and no readiness wait — after
the status checks the attempt sleeps, best-effort closes the cookie banner
(exceptions swallowed) and returns `True`. -/
def zaraSafeGotoAux (out : Nat → AttemptOutcome) (a w : Nat) : Nat → Bool × Nat
  | 0 => (false, w)
  | r + 1 =>
    let o := out a
    if o.gotoRaises then zaraSafeGotoAux out (a + 1) w r
    else
      match o.response with
      | some s =>
        if s = 429 then zaraSafeGotoAux out (a + 1) (w + 1) r
        else if 400 ≤ s then (false, w)
        else (true, w)
      | none => (true, w)

/-- Embedding of `ZaraPlaywrightInterface.safe_goto` with its injected attempt outcomes. -/
def zara_safe_goto (out : Nat → AttemptOutcome) : Bool × Nat :=
  zaraSafeGotoAux out 0 0 3

/-- An injected attempt outcome that is just an HTTP response with status
`s` and a well-behaved page (no exception, no redirect, content ready). -/
def statusOutcome (s : Nat) : AttemptOutcome :=
  { gotoRaises := false, response := some s, redirected := false, contentReady := true }

/-- Response sequence consisting of `n` HTTP 429 responses followed by 200s. -/
def rateLimitedThenOk (n : Nat) : Nat → AttemptOutcome :=
  fun i => statusOutcome (if i < n then 429 else 200)

/-! ## Numbered-page catalog paginator
    (`run_scrapper`, `src/main.py` lines 66-93) -/

/-- Per-category page loop of `run_scrapper`: pages are fetched in order
starting at `p` with `consecutive_empty_pages = cnt` and `r` pages left
(`for page in range(1, pages + 1)` gives `r = pages` at `p = 1`). An empty
link set increments the counter and, at `max_consecutive_empty = 5`, breaks
out of the category; a non-empty page resets the counter to `0`. The
returned list records exactly the pages fetched. -/
def pageLoop {L : Type} (fetch : Nat → List L) (cnt p : Nat) : Nat → List Nat
  | 0 => []
  | r + 1 =>
    if (fetch p).isEmpty then
      if 5 ≤ cnt + 1 then [p]
      else p :: pageLoop fetch (cnt + 1) (p + 1) r
    else p :: pageLoop fetch 0 (p + 1) r

/-- Pages fetched by `run_scrapper` for a category with `pages = n`,
where `fetch p` is the link list `driver.get_elements` returns for page `p`. -/
def pagesFetched {L : Type} (fetch : Nat → List L) (n : Nat) : List Nat :=
  pageLoop fetch 0 1 n

/-! ## Infinite-scroll loader
    (`ZaraPlaywrightInterface.scroll_and_load_items`,
    `src/scripts/interfaces.py` lines 380-442) -/

/-- Python's `str.startswith`, computed on the character lists (structural
recursion, so that concrete scenarios evaluate). -/
def pyStartsWith (s pre : String) : Bool :=
  pre.data.isPrefixOf s.data

/-- Link extraction of one scroll iteration (lines 402-416): of the hrefs
found near product headings, keep those starting with `http` and collect
them into a set; `list(set(...))` is determinized as `dedup` of the
insertion order. Only the underlying set (membership and size) drives the
loop. -/
def currentLinks (hrefs : List String) : List String :=
  (hrefs.filter (fun h => pyStartsWith h "http")).dedup

/-- Loop state of `scroll_and_load_items`: the accumulated link list
`all_links`, `previous_count`, `no_new_items_count`, and whether the loop
has exited (by `break` or by the `while` condition turning false). -/
structure ScrollState where
  allLinks : List String
  previousCount : Nat
  noNewItems : Nat
  stopped : Bool

/-- One iteration of the `while len(all_links) < self.items_limit` loop of
`scroll_and_load_items`, fed the links `current` present in the DOM after
this iteration's scroll. `all_links` is replaced wholesale by the freshly
queried set (line 416); an unchanged count increments the stagnation
counter, which breaks the loop at `max_no_new_items = 5`; a changed count
resets it; reaching `items_limit` also breaks. -/
def scrollStep (limit : Nat) (current : List String) (s : ScrollState) : ScrollState :=
  if s.stopped then s
  else if ¬ s.allLinks.length < limit then { s with stopped := true }
  else
    let c := current.length
    if c = s.previousCount then
      if 5 ≤ s.noNewItems + 1 then
        { allLinks := current, previousCount := c, noNewItems := s.noNewItems + 1,
          stopped := true }
      else if limit ≤ c then
        { allLinks := current, previousCount := c, noNewItems := s.noNewItems + 1,
          stopped := true }
      else
        { allLinks := current, previousCount := c, noNewItems := s.noNewItems + 1,
          stopped := false }
    else
      if limit ≤ c then
        { allLinks := current, previousCount := c, noNewItems := 0, stopped := true }
      else
        { allLinks := current, previousCount := c, noNewItems := 0, stopped := false }

/-- State of `scroll_and_load_items` after `n` loop iterations, where
`dom i` lists the product-link hrefs present in the DOM during iteration
`i` (0-indexed). The loop starts with `all_links = []`,
`previous_count = 0`, `no_new_items_count = 0`. -/
def scrollState (dom : Nat → List String) (limit : Nat) : Nat → ScrollState
  | 0 => { allLinks := [], previousCount := 0, noNewItems := 0, stopped := false }
  | n + 1 => scrollStep limit (currentLinks (dom n)) (scrollState dom limit n)

/-- Value returned by `scroll_and_load_items` as seen after `n` iterations:
`all_links[:items_limit]` (line 442). Once the state is `stopped` it is
frozen, so this is the function's return value for any `n` at or past the
stopping iteration. -/
def scrollResult (dom : Nat → List String) (limit n : Nat) : List String :=
  (scrollState dom limit n).allLinks.take limit

/-! ## Helper lemmas about the accumulation folds -/

/-- Left fold that appends `f c` for each element equals the flat map. -/
theorem foldl_append_flatMap {α β : Type} (f : α → List β) (l : List α) (acc : List β) :
    l.foldl (fun a c => a ++ f c) acc = acc ++ l.flatMap f := by
  induction l generalizing acc with
  | nil => simp
  | cons x xs ih => simp [ih, List.flatMap_cons]

/-- Left fold that conditionally appends each element equals the filter. -/
theorem foldl_append_filtered {β : Type} (q : β → Bool) (l acc : List β) :
    l.foldl (fun a p => if q p then a ++ [p] else a) acc = acc ++ l.filter q := by
  induction l generalizing acc with
  | nil => simp
  | cons x xs ih =>
    by_cases h : q x <;> simp [h, ih, List.filter_cons]

/-- The nested accumulation loop of `get_category_products` in
`src/zara_api_parser.py` computes the filtered flattening of all
commercial components. -/
theorem collectProductsV1_eq (data : ApiListing) :
    collectProductsV1 data = (flattenComponents data).filter keepProduct := by
  obtain ⟨pgs⟩ := data
  cases pgs with
  | none => rfl
  | some groups =>
    have hitem : ∀ (items : List ApiItem) (acc : List ApiProduct),
        items.foldl (fun acc item => item.commercialComponents.foldl
          (fun acc p => if keepProduct p then acc ++ [p] else acc) acc) acc
        = acc ++ (items.flatMap (·.commercialComponents)).filter keepProduct := by
      intro items
      induction items with
      | nil => intro acc; simp
      | cons i is ih =>
        intro acc
        simp [foldl_append_filtered, foldl_append_flatMap, ih, List.flatMap_cons,
          List.filter_append, List.append_assoc, List.filter_flatMap]
    have hgroups : ∀ (gs : List ApiGroup) (acc : List ApiProduct),
        gs.foldl (fun acc g => (groupItems g).foldl (fun acc item =>
          item.commercialComponents.foldl
            (fun acc p => if keepProduct p then acc ++ [p] else acc) acc) acc) acc
        = acc ++ (gs.flatMap (fun g =>
            (groupItems g).flatMap (·.commercialComponents))).filter keepProduct := by
      intro gs
      induction gs with
      | nil => intro acc; simp
      | cons g rest ih =>
        intro acc
        simp [hitem, foldl_append_flatMap, ih, List.flatMap_cons, List.filter_append,
          List.append_assoc, List.filter_flatMap]
    simpa [collectProductsV1, flattenComponents] using hgroups groups []

/-- The nested accumulation loop of `get_category_products` in
`src/zara_parser/api.py` computes the plain flattening of all commercial
components (no filter). -/
theorem collectProductsV2_eq (data : ApiListing) :
    collectProductsV2 data = flattenComponents data := by
  obtain ⟨pgs⟩ := data
  cases pgs with
  | none => rfl
  | some groups =>
    have hitem : ∀ (items : List ApiItem) (acc : List ApiProduct),
        items.foldl (fun acc item => item.commercialComponents.foldl
          (fun acc p => acc ++ [p]) acc) acc
        = acc ++ items.flatMap (·.commercialComponents) := by
      intro items
      induction items with
      | nil => intro acc; simp
      | cons i is ih =>
        intro acc
        have : ∀ (l acc : List ApiProduct), l.foldl (fun a p => a ++ [p]) acc = acc ++ l := by
          intro l acc
          simpa using foldl_append_flatMap (fun p => [p]) l acc
        simp [this, foldl_append_flatMap, ih, List.flatMap_cons, List.append_assoc]
    have hgroups : ∀ (gs : List ApiGroup) (acc : List ApiProduct),
        gs.foldl (fun acc g => (groupItems g).foldl (fun acc item =>
          item.commercialComponents.foldl (fun acc p => acc ++ [p]) acc) acc) acc
        = acc ++ gs.flatMap (fun g => (groupItems g).flatMap (·.commercialComponents)) := by
      intro gs
      induction gs with
      | nil => intro acc; simp
      | cons g rest ih =>
        intro acc
        simp [hitem, foldl_append_flatMap, ih, List.flatMap_cons, List.append_assoc]
    simpa [collectProductsV2, flattenComponents] using hgroups groups []

/-! ## Claim C5 -/

/-- A commercial component that is a marketing element
(`type == 'Product'`, `kind == 'Marketing'`). -/
def marketingComponent : ApiProduct :=
  { pid := none, pname := none, price := none, typ := some "Product",
    kind := some "Marketing", reference := none, sectionName := none,
    familyName := none, seo := none, detail := none, description := none }

/-- A listing response with a single group whose only commercial component
is `marketingComponent`. -/
def marketingListing : ApiListing :=
  { productGroups := some [{ elements := [{ commercialComponents := [marketingComponent] }],
                             products := [] }] }

/-- Claim C5, counterexample: the `src/zara_parser/api.py` embodiment of
`get_category_products` does not filter out marketing elements — on a
listing whose only commercial component is a marketing element it returns
that element, while the filtered flattening demanded by the claim is empty
(as the `src/zara_api_parser.py` embodiment indeed returns). -/
theorem c5_counterexample_marketing_returned :
    get_category_productsV2 marketingListing 15 = [marketingComponent]
    ∧ keepProduct marketingComponent = false
    ∧ get_category_productsV2 marketingListing 15
        ≠ (flattenComponents marketingListing).filter keepProduct
    ∧ get_category_productsV1 marketingListing 15 = [] := by
  refine ⟨rfl, rfl, ?_, rfl⟩
  decide

/-- Claim C5 (amended): the embodiment of `get_category_products` in
`src/zara_api_parser.py` returns the flattening of all commercial
components across all product groups with non-product marketing elements
filtered out (keeping exactly the components with `type == 'Product'` and
`kind != 'Marketing'`), truncated to `items_limit`; the embodiment in
`src/zara_parser/api.py` returns the unfiltered flattening truncated to
`items_limit` — the marketing filter is present only in the
`zara_api_parser.py` embodiment, not in all embodiments. -/
theorem c5_get_category_products_policy (data : ApiListing) (limit : Nat) :
    get_category_productsV1 data limit
      = applyItemsLimit limit ((flattenComponents data).filter keepProduct)
    ∧ get_category_productsV2 data limit = applyItemsLimit limit (flattenComponents data) := by
  constructor
  · rw [get_category_productsV1, collectProductsV1_eq]
  · rw [get_category_productsV2, collectProductsV2_eq]

/-! ## Claim C6 -/

/-- Claim C6: for every raw API product object carrying an integer `price`
field, both embodiments of `parse_product` set the emitted record's price
to the raw integer divided by 100 (exact division, modelled in `ℚ`); the
`zara_api_parser.py` embodiment emits the record when the object's type is
`Product` and its kind is not `Marketing`. -/
theorem c6_parse_product_price_div100 (p : ApiProduct) (r : ℤ) (country lang : String)
    (hp : p.price = some r) (ht : p.typ = some "Product")
    (hk : p.kind ≠ some "Marketing") :
    (parse_productV1 p country lang).map (·.price) = some ((r : ℚ) / 100)
    ∧ (parse_productV2 p country lang).price = (r : ℚ) / 100 := by
  constructor
  · have hpr : topPriceV1 p = (r : ℚ) / 100 := by
      rw [topPriceV1, hp]
      by_cases hr : r = 0 <;> simp [hr]
    simp [parse_productV1, ht, hk, assembleProduct, hpr]
  · simp [parse_productV2, assembleProduct, topPriceV2, hp]

/-- A concrete raw API product object with raw price `12990`. -/
def plainProduct : ApiProduct :=
  { pid := some 1, pname := some "JACKET", price := some 12990,
    typ := some "Product", kind := none, reference := none,
    sectionName := none, familyName := none, seo := none, detail := none,
    description := none }

/-- Claim C6, witness: on a concrete product with raw price `12990` both
embodiments extract the price `129.9`. -/
theorem c6_witness_12990 :
    (parse_productV1 plainProduct "kz" "en").map (·.price) = some ((12990 : ℚ) / 100)
    ∧ (parse_productV2 plainProduct "kz" "en").price = (12990 : ℚ) / 100
    ∧ ((12990 : ℚ) / 100) = 129.9 := by
  have h := c6_parse_product_price_div100 plainProduct 12990 "kz" "en" rfl rfl (by decide)
  exact ⟨h.1, h.2, by norm_num⟩

/-! ## Claim C9 -/

/-- Claim C9: when the first color of `detail.colors` has no `price` key of
its own, both embodiments of `parse_product` compute the `color_info` price
as the already-divided top-level price divided by 100 again, i.e. the raw
integer price divided by 10000 — and for a non-zero raw price that differs
from the raw price divided by 100. -/
theorem c9_color_price_double_division (p : ApiProduct) (r : ℤ) (first : ApiColor)
    (rest : List ApiColor) (hp : p.price = some r)
    (hc : (detailOf p).colors = first :: rest) (hcp : first.price = none)
    (_ht : p.typ = some "Product") (_hk : p.kind ≠ some "Marketing") :
    (colorInfoOf p (topPriceV1 p)).map (·.price) = some ((r : ℚ) / 10000)
    ∧ (colorInfoOf p (topPriceV2 p)).map (·.price) = some ((r : ℚ) / 10000)
    ∧ (r ≠ 0 → ((r : ℚ) / 10000) ≠ (r : ℚ) / 100) := by
  refine ⟨?_, ?_, ?_⟩
  · have hpr : topPriceV1 p = (r : ℚ) / 100 := by
      rw [topPriceV1, hp]
      by_cases hr : r = 0 <;> simp [hr]
    simp [colorInfoOf, hc, mkColorInfo, hcp, hpr, div_div]
    norm_num
  · simp [colorInfoOf, hc, mkColorInfo, hcp, topPriceV2, hp, div_div]
    norm_num
  · intro hr0 heq
    have hr0' : (r : ℚ) ≠ 0 := Int.cast_ne_zero.mpr hr0
    rw [div_eq_div_iff (by norm_num) (by norm_num)] at heq
    have : (100 : ℚ) = 10000 := mul_left_cancel₀ hr0' heq
    norm_num at this

/-- A concrete color variant without a `price` key. -/
def pricelessColor : ApiColor :=
  { cname := some "Brown", reference := none, price := none,
    availability := none, xmedia := [] }

/-- A concrete raw API product with raw price `12990` whose first color has
no `price` key. -/
def productWithPricelessColor : ApiProduct :=
  { pid := some 1, pname := some "JACKET", price := some 12990,
    typ := some "Product", kind := none, reference := none,
    sectionName := none, familyName := none, seo := none,
    detail := some { displayReference := none, colors := [pricelessColor] },
    description := none }

/-- Claim C9, witness: on the concrete product the `color_info` price is
`12990 / 10000 = 1.299`, not `129.9`. -/
theorem c9_witness_double_division :
    (colorInfoOf productWithPricelessColor (topPriceV1 productWithPricelessColor)).map (·.price)
      = some ((12990 : ℚ) / 10000)
    ∧ (colorInfoOf productWithPricelessColor (topPriceV2 productWithPricelessColor)).map (·.price)
      = some ((12990 : ℚ) / 10000)
    ∧ ((12990 : ℚ) ≠ 0 → ((12990 : ℚ) / 10000) ≠ (12990 : ℚ) / 100) := by
  have h := c9_color_price_double_division productWithPricelessColor 12990 pricelessColor []
    rfl rfl rfl rfl (by decide)
  exact ⟨h.1, h.2.1, fun _ => h.2.2 (by norm_num)⟩

/-! ## Claims C7 and C8 -/

/-- The category loop is the flat map of the per-category results over the
remaining categories, appended to the accumulator. -/
theorem categoryLoop_eq {Cat Prod : Type} (parseCat : Cat → List Prod)
    (cats : List Cat) (start : Nat) (acc : List Prod) :
    categoryLoop parseCat cats start acc = acc ++ (cats.drop start).flatMap parseCat := by
  rw [categoryLoop, foldl_append_flatMap]

/-- Claim C7: resuming a 5-category run from a checkpoint that recorded
`current_index = 3` (after the first three categories) together with the
category list and 12 accumulated products processes exactly the remaining
two categories: the result is the 12 checkpointed records followed by the
products of categories 4 and 5, so its length is `12 +` the number of
products found there, and the first three categories contribute nothing. -/
theorem c7_resume_processes_remaining {Cat Prod : Type} (c1 c2 c3 c4 c5 : Cat)
    (prods : List Prod) (parseCat : Cat → List Prod) (hlen : prods.length = 12) :
    parse_multiple_categories [c1, c2, c3, c4, c5] true
        (some { current_index := 3, categories := [c1, c2, c3, c4, c5],
                products := prods }) parseCat
      = prods ++ (parseCat c4 ++ parseCat c5)
    ∧ (parse_multiple_categories [c1, c2, c3, c4, c5] true
        (some { current_index := 3, categories := [c1, c2, c3, c4, c5],
                products := prods }) parseCat).length
      = 12 + ((parseCat c4).length + (parseCat c5).length) := by
  have key : parse_multiple_categories [c1, c2, c3, c4, c5] true
      (some { current_index := 3, categories := [c1, c2, c3, c4, c5],
              products := prods }) parseCat
      = prods ++ (parseCat c4 ++ parseCat c5) := by
    rw [parse_multiple_categories]
    simp [load_progress, categoryLoop_eq]
  refine ⟨key, ?_⟩
  rw [key]
  simp [hlen]

/-- Claim C7, witness: a concrete 5-category resume with 12 checkpointed
records and singleton per-category results. -/
theorem c7_witness_concrete :
    parse_multiple_categories [1, 2, 3, 4, 5] true
        (some { current_index := 3, categories := [1, 2, 3, 4, 5],
                products := List.range 12 }) (fun c => [c])
      = List.range 12 ++ ([4] ++ [5])
    ∧ (parse_multiple_categories [1, 2, 3, 4, 5] true
        (some { current_index := 3, categories := [1, 2, 3, 4, 5],
                products := List.range 12 }) (fun c => [c])).length
      = 12 + (([4] : List Nat).length + ([5] : List Nat).length) :=
  c7_resume_processes_remaining 1 2 3 4 5 (List.range 12) (fun c => [c]) (by decide)

/-- Claim C8: a resume run without a loadable checkpoint replaces the
passed-in category list by the empty list returned by `load_progress`, so
`parse_multiple_categories` processes zero categories and returns the empty
product list — it does not fall back to the configured categories. -/
theorem c8_resume_without_checkpoint_empty {Cat Prod : Type} (categories : List Cat)
    (parseCat : Cat → List Prod) :
    parse_multiple_categories categories true none parseCat = [] := by
  rw [parse_multiple_categories]
  simp [load_progress, categoryLoop_eq]

/-! ## Claim C10 -/

/-- The record built by `parse_elements` for one successfully loaded page. -/
def wdRecordOf (link : String) (pg : WDPage) (category gender : String) : WDRecord :=
  { url := link, images := pg.images, price := pg.price,
    short_description := pg.short_description, category := category, gender := gender }

/-- The accumulation loop of `WebDriverInterface.parse_elements` is the
`filterMap` of the per-link extraction over the links it visits. -/
theorem parse_elementsWD_eq_filterMap (content : String → Option WDPage)
    (links : List String) (category gender : String) :
    parse_elementsWD content links category gender
      = (links.take 10).filterMap
          (fun link => (content link).map (fun pg => wdRecordOf link pg category gender)) := by
  rw [parse_elementsWD]
  have aux : ∀ (l : List String) (acc : List WDRecord),
      l.foldl (fun data link =>
        match content link with
        | none => data
        | some pg => data ++ [{ url := link, images := pg.images, price := pg.price,
                                short_description := pg.short_description,
                                category := category, gender := gender }]) acc
      = acc ++ l.filterMap
          (fun link => (content link).map (fun pg => wdRecordOf link pg category gender)) := by
    intro l
    induction l with
    | nil => intro acc; simp
    | cons x xs ih =>
      intro acc
      cases hcx : content x <;>
        simp [hcx, ih, List.filterMap_cons, wdRecordOf, List.append_assoc]
  simpa using aux (links.take 10) []

/-- Claim C10: `WebDriverInterface.parse_elements` visits only the first 10
links — its result on any link list equals its result on the first 10
links, and the returned record list always has length at most 10. -/
theorem c10_parse_elements_first_ten (content : String → Option WDPage)
    (links : List String) (category gender : String) :
    parse_elementsWD content links category gender
      = parse_elementsWD content (links.take 10) category gender
    ∧ (parse_elementsWD content links category gender).length ≤ 10 := by
  constructor
  · rw [parse_elementsWD_eq_filterMap, parse_elementsWD_eq_filterMap, List.take_take]
    norm_num
  · rw [parse_elementsWD_eq_filterMap]
    calc ((links.take 10).filterMap _).length
        ≤ (links.take 10).length := List.length_filterMap_le _ _
      _ ≤ 10 := by
          rw [List.length_take]
          exact Nat.min_le_left _ _

/-! ## Claim C1 -/

/-- Run of the retry loop under a 429-run: if the next `n` attempts (with
`n` below the remaining budget `r`) all observe a plain 429 response and
the attempt after them observes a plain 200, both `safe_goto` loop bodies
return `true` having performed exactly one 60-second wait per 429. -/
theorem safeGotoAux_429_run (out : Nat → AttemptOutcome) :
    ∀ (n a w r : Nat), n < r →
    (∀ i, i < n → out (a + i) = statusOutcome 429) →
    out (a + n) = statusOutcome 200 →
    safeGotoAux out a w r = (true, w + n) ∧ zaraSafeGotoAux out a w r = (true, w + n) := by
  intro n
  induction n with
  | zero =>
    intro a w r hr h429 h200
    obtain ⟨r', rfl⟩ : ∃ r', r = r' + 1 := ⟨r - 1, by omega⟩
    have ho : out a = statusOutcome 200 := by simpa using h200
    constructor <;> simp [safeGotoAux, zaraSafeGotoAux, ho, statusOutcome]
  | succ n ih =>
    intro a w r hr h429 h200
    obtain ⟨r', rfl⟩ : ∃ r', r = r' + 1 := ⟨r - 1, by omega⟩
    have ho : out a = statusOutcome 429 := by simpa using h429 0 (by omega)
    have h429' : ∀ i, i < n → out (a + 1 + i) = statusOutcome 429 := by
      intro i hi
      rw [show a + 1 + i = a + (i + 1) by omega]
      exact h429 (i + 1) (by omega)
    have h200' : out (a + 1 + n) = statusOutcome 200 := by
      rw [show a + 1 + n = a + (n + 1) by omega]
      exact h200
    have hih := ih (a + 1) (w + 1) r' (by omega) h429' h200'
    have harith : w + 1 + n = w + (n + 1) := by omega
    constructor
    · simp [safeGotoAux, ho, statusOutcome, hih.1, harith]
    · simp [zaraSafeGotoAux, ho, statusOutcome, hih.2, harith]

/-- Claim C1 (amended): for every sequence of fewer than 3 injected 429
responses followed by a 200, both embodiments of `safe_goto` return `true`,
waiting 60 seconds after each 429; each 429 consumes one of the 3 attempt
slots (so 3 or more injected 429s exhaust the budget and return `false`),
and no proxy switch is attempted — the code contains no proxy switching. -/
theorem c1_safe_goto_429_within_budget (out : Nat → AttemptOutcome) (n : Nat)
    (hn : n < 3)
    (h429 : ∀ i, i < n → out i = statusOutcome 429)
    (h200 : out n = statusOutcome 200) :
    safe_goto out = (true, n) ∧ zara_safe_goto out = (true, n) := by
  have h := safeGotoAux_429_run out n 0 0 3 hn (by simpa using h429) (by simpa using h200)
  simpa [safe_goto, zara_safe_goto] using h

/-- Claim C1, witness: two 429s then a 200 succeed with two 60-second
waits, in both embodiments. -/
theorem c1_witness_two_429s :
    safe_goto (rateLimitedThenOk 2) = (true, 2)
    ∧ zara_safe_goto (rateLimitedThenOk 2) = (true, 2) :=
  c1_safe_goto_429_within_budget (rateLimitedThenOk 2) 2 (by omega)
    (by intro i hi; interval_cases i <;> rfl) rfl

/-- Claim C1, counterexample: three 429s followed by a 200 exhaust the
3-attempt budget, and both embodiments of `safe_goto` return `false` (after
three 60-second waits) instead of the `true` the claim requires; no proxy
switch exists in the code to be attempted. -/
theorem c1_counterexample_three_429s :
    safe_goto (rateLimitedThenOk 3) = (false, 3)
    ∧ zara_safe_goto (rateLimitedThenOk 3) = (false, 3) := by
  constructor <;> rfl

/-! ## Claim C3 -/

/-- Pages with non-empty link sets are fetched one after another with the
consecutive-empty counter staying at 0: the loop walks `k` non-empty pages
starting at `a` and continues at `a + k` with the counter still 0. -/
theorem pageLoop_nonempty_run {L : Type} (fetch : Nat → List L) :
    ∀ (k a r : Nat), (∀ i, i < k → (fetch (a + i)).isEmpty = false) →
    pageLoop fetch 0 a (k + r) = List.range' a k ++ pageLoop fetch 0 (a + k) r := by
  intro k
  induction k with
  | zero => intro a r _; simp
  | succ k ih =>
    intro a r h
    have h0 : (fetch a).isEmpty = false := by simpa using h 0 (by omega)
    rw [show k + 1 + r = (k + r) + 1 by omega]
    rw [pageLoop, h0]
    simp only [Bool.false_eq_true, if_false]
    rw [ih (a + 1) r (fun i hi => by
      rw [show a + 1 + i = a + (i + 1) by omega]
      exact h (i + 1) (by omega))]
    rw [List.range'_succ]
    simp [show a + 1 + k = a + (k + 1) by omega]

/-- Five consecutive empty pages starting at `a` with the counter at 0 end
the category: exactly pages `a .. a + 4` are fetched and the loop breaks on
the fifth. -/
theorem pageLoop_empty_run {L : Type} (fetch : Nat → List L) (a r : Nat)
    (h : ∀ i, i ≤ 4 → (fetch (a + i)).isEmpty = true) :
    pageLoop fetch 0 a (r + 5) = [a, a + 1, a + 2, a + 3, a + 4] := by
  have h0 : (fetch a).isEmpty = true := by simpa using h 0 (by omega)
  have h1 : (fetch (a + 1)).isEmpty = true := h 1 (by omega)
  have h2 : (fetch (a + 1 + 1)).isEmpty = true := by
    rw [show a + 1 + 1 = a + 2 by omega]; exact h 2 (by omega)
  have h3 : (fetch (a + 1 + 1 + 1)).isEmpty = true := by
    rw [show a + 1 + 1 + 1 = a + 3 by omega]; exact h 3 (by omega)
  have h4 : (fetch (a + 1 + 1 + 1 + 1)).isEmpty = true := by
    rw [show a + 1 + 1 + 1 + 1 = a + 4 by omega]; exact h 4 (by omega)
  rw [show r + 5 = r + 4 + 1 by omega, pageLoop, h0]
  rw [show r + 4 = r + 3 + 1 by omega, pageLoop, h1]
  rw [show r + 3 = r + 2 + 1 by omega, pageLoop, h2]
  rw [show r + 2 = r + 1 + 1 by omega, pageLoop, h3]
  rw [show r + 1 = r + 0 + 1 by omega, pageLoop, h4]
  simp

/-- Claim C3: in `run_scrapper`'s page loop over pages `1 .. 10`, an empty
page increments the consecutive-empty counter, a non-empty page resets it,
and the 5th consecutive empty page ends the category: when pages `s` to
`s + 6` are the empty ones (7 consecutive empty pages within the 10, the
run starting at page `s ≤ 6`) and the earlier pages are non-empty, exactly
pages `1 .. s + 4` are fetched — traversal stops immediately after the 5th
consecutive empty page and no later page is ever fetched. -/
theorem c3_numbered_pages_stop {L : Type} (fetch : Nat → List L) (s : Nat)
    (hs1 : 1 ≤ s) (hs6 : s ≤ 6) (hin : s + 6 ≤ 10)
    (hempty : ∀ p, s ≤ p → p ≤ s + 6 → (fetch p).isEmpty = true)
    (hbefore : ∀ p, 1 ≤ p → p < s → (fetch p).isEmpty = false) :
    pagesFetched fetch 10 = List.range' 1 (s + 4)
    ∧ ∀ p, s + 5 ≤ p → p ∉ pagesFetched fetch 10 := by
  have key : pagesFetched fetch 10 = List.range' 1 (s + 4) := by
    rw [pagesFetched, show 10 = (s - 1) + ((6 - s) + 5) by omega]
    rw [pageLoop_nonempty_run fetch (s - 1) 1 ((6 - s) + 5)
      (fun i hi => hbefore (1 + i) (by omega) (by omega))]
    rw [show 1 + (s - 1) = s by omega]
    rw [pageLoop_empty_run fetch s (6 - s)
      (fun i hi => hempty (s + i) (by omega) (by omega))]
    have hfive : [s, s + 1, s + 2, s + 3, s + 4] = List.range' s 5 := by
      simp [List.range'_succ]
    rw [hfive]
    have happ := List.range'_append 1 (s - 1) 5 1
    rw [show 1 + 1 * (s - 1) = s by omega] at happ
    rw [happ, show 5 + (s - 1) = s + 4 by omega]
  refine ⟨key, ?_⟩
  intro p hp hmem
  rw [key, List.mem_range'_1] at hmem
  omega

/-- Link fetch oracle realizing the C3 scenario for `s = 2`: pages 2..8 are
empty, every other page has one link. -/
def fetchScenario : Nat → List Nat :=
  fun p => if 2 ≤ p ∧ p ≤ 8 then [] else [p]

/-- Claim C3, witness: with the empty run starting at page 2, exactly pages
1..6 are fetched and pages from 7 on are never fetched. -/
theorem c3_witness_pages :
    pagesFetched fetchScenario 10 = List.range' 1 6
    ∧ ∀ p, 7 ≤ p → p ∉ pagesFetched fetchScenario 10 :=
  c3_numbered_pages_stop fetchScenario 2 (by omega) (by omega) (by omega)
    (by
      intro p h1 h2
      simp only [fetchScenario]
      rw [if_pos ⟨h1, by omega⟩]
      rfl)
    (by
      intro p h1 h2
      simp only [fetchScenario]
      rw [if_neg (by omega)]
      rfl)

/-! ## Claims C2 and C4: scroll-loop lemmas -/

/-- Once the scroll loop has exited it stays exited (the state is frozen). -/
theorem scroll_stopped_step (dom : Nat → List String) (limit n : Nat)
    (h : (scrollState dom limit n).stopped = true) :
    (scrollState dom limit (n + 1)).stopped = true := by
  rw [scrollState, scrollStep]
  simp [h]

/-- Monotone version of `scroll_stopped_step`. -/
theorem scroll_stopped_mono (dom : Nat → List String) (limit : Nat) :
    ∀ (m n : Nat), n ≤ m → (scrollState dom limit n).stopped = true →
    (scrollState dom limit m).stopped = true := by
  intro m
  induction m with
  | zero =>
    intro n hn h
    have : n = 0 := by omega
    subst this
    exact h
  | succ m ih =>
    intro n hn h
    by_cases hm : n = m + 1
    · subst hm; exact h
    · exact scroll_stopped_step dom limit m (ih n (by omega) h)

/-- After each iteration the accumulated link list either is untouched (the
loop had exited) or was replaced by the links of the current DOM query. -/
theorem scroll_links_cases (dom : Nat → List String) (limit n : Nat) :
    (scrollState dom limit (n + 1)).allLinks = (scrollState dom limit n).allLinks
    ∨ (scrollState dom limit (n + 1)).allLinks = currentLinks (dom n) := by
  simp only [scrollState, scrollStep]
  split_ifs <;> first
    | exact Or.inl rfl
    | exact Or.inr rfl

/-- If the loop has not exited after iteration `n + 1`, then
`previous_count` holds the size of iteration `n + 1`'s freshly queried link
set. -/
theorem scroll_prev_of_progress (dom : Nat → List String) (limit n : Nat)
    (h : (scrollState dom limit (n + 1)).stopped = false) :
    (scrollState dom limit (n + 1)).previousCount = (currentLinks (dom n)).length := by
  revert h
  simp only [scrollState, scrollStep]
  split_ifs <;> intro h <;> simp_all

/-- If an iteration finds the same link count as `previous_count` and the
loop continues, the stagnation counter has been incremented. -/
theorem scroll_stagnation_increment (dom : Nat → List String) (limit n : Nat)
    (h0 : (scrollState dom limit n).stopped = false)
    (h1 : (scrollState dom limit (n + 1)).stopped = false)
    (hc : (currentLinks (dom n)).length = (scrollState dom limit n).previousCount) :
    (scrollState dom limit (n + 1)).noNewItems = (scrollState dom limit n).noNewItems + 1 := by
  revert h1
  simp only [scrollState, scrollStep]
  split_ifs <;> intro h1 <;> simp_all

/-- Stable phase of the scroll loop: if from iteration `n + 1` on every DOM
query yields exactly `clen` links and the state after `n` iterations is
live with `previous_count = clen`, the loop exits within `5 - no_new_items`
further iterations. -/
theorem scroll_stable_stops (dom : Nat → List String) (limit clen : Nat) :
    ∀ (m n : Nat), 1 ≤ m →
    (∀ j, n ≤ j → (currentLinks (dom j)).length = clen) →
    (scrollState dom limit n).stopped = false →
    (scrollState dom limit n).previousCount = clen →
    5 ≤ (scrollState dom limit n).noNewItems + m →
    (scrollState dom limit (n + m)).stopped = true := by
  intro m
  induction m with
  | zero => intro n h1; exact absurd h1 (by omega)
  | succ m ih =>
    intro n _ hc hstop hprev hnn
    have hceq : (currentLinks (dom n)).length = (scrollState dom limit n).previousCount := by
      rw [hprev]; exact hc n le_rfl
    by_cases hm : m = 0
    · subst hm
      simp only [scrollState, scrollStep]
      split_ifs <;> simp_all
    · by_cases hstop1 : (scrollState dom limit (n + 1)).stopped = true
      · exact scroll_stopped_mono dom limit (n + (m + 1)) (n + 1) (by omega) hstop1
      · have hstop1' : (scrollState dom limit (n + 1)).stopped = false := by
          simpa using hstop1
        have hprev1 : (scrollState dom limit (n + 1)).previousCount = clen := by
          rw [scroll_prev_of_progress dom limit n hstop1']
          exact hc n le_rfl
        have hnn1 := scroll_stagnation_increment dom limit n hstop hstop1' hceq
        have h := ih (n + 1) (by omega) (fun j hj => hc j (by omega)) hstop1' hprev1 (by omega)
        rw [show n + (m + 1) = (n + 1) + m by omega]
        exact h

/-! ## Claim C2 -/

/-- A DOM whose second and later queries lose the link `http://b` that the
first query contained. -/
def domShrink : Nat → List String :=
  fun i => if i = 0 then ["http://a", "http://b"] else ["http://a"]

/-- Claim C2, counterexample: `scroll_and_load_items` replaces the
accumulated link list wholesale with each fresh DOM query, so a link
present in the accumulated set at the start of an iteration can be gone at
its end: with DOM states `[a, b]` then `[a]` (and the default
`items_limit = 200`), link `http://b` is in the accumulated set after
iteration 1 and lost after iteration 2. -/
theorem c2_counterexample_shrinks :
    "http://b" ∈ (scrollState domShrink 200 1).allLinks
    ∧ "http://b" ∉ (scrollState domShrink 200 2).allLinks := by
  constructor <;> decide

/-- Claim C2 (amended): the accumulated link set is replaced each iteration
by the deduplicated set of product links currently in the DOM, so it can
shrink when links disappear from the page; whenever every link present in
one DOM query is still present in the next (cumulative infinite scroll),
the accumulated set never shrinks: every link in it at the start of an
iteration is still in it at the end. -/
theorem c2_scroll_links_monotone (dom : Nat → List String) (limit : Nat)
    (hmono : ∀ i l, l ∈ currentLinks (dom i) → l ∈ currentLinks (dom (i + 1))) :
    ∀ n l, l ∈ (scrollState dom limit n).allLinks →
      l ∈ (scrollState dom limit (n + 1)).allLinks := by
  have hsub : ∀ n l, l ∈ (scrollState dom limit n).allLinks → l ∈ currentLinks (dom n) := by
    intro n
    induction n with
    | zero => intro l h; simp [scrollState] at h
    | succ n ih =>
      intro l h
      rcases scroll_links_cases dom limit n with hcase | hcase
      · rw [hcase] at h; exact hmono n l (ih l h)
      · rw [hcase] at h; exact hmono n l h
  intro n l h
  rcases scroll_links_cases dom limit n with hcase | hcase
  · rw [hcase]; exact h
  · rw [hcase]; exact hsub n l h

/-- Claim C2, witness: with a constant (hence cumulative) DOM the link
`http://a`, accumulated after iteration 1, is still accumulated after
iteration 2. -/
theorem c2_witness_monotone :
    "http://a" ∈ (scrollState (fun _ => ["http://a"]) 200 2).allLinks :=
  c2_scroll_links_monotone (fun _ => ["http://a"]) 200 (fun _ _ h => h) 1 "http://a"
    (by decide)

/-! ## Claim C4 -/

/-- Claim C4: if the DOM stops producing new distinct product links after
`k` scroll iterations — every query from iteration `k` on yields the same
number `clen` of links, with `clen = 0` when `k = 0` since before the first
iteration nothing has been produced — then `scroll_and_load_items`
terminates within `k + 5` loop iterations (5 stagnant iterations exit the
loop), and the returned list `all_links[:items_limit]` never holds more
than `items_limit` links. -/
theorem c4_scroll_terminates (dom : Nat → List String) (limit k clen : Nat)
    (hstab : ∀ j, k ≤ j + 1 → (currentLinks (dom j)).length = clen)
    (hzero : k = 0 → clen = 0) :
    (scrollState dom limit (k + 5)).stopped = true
    ∧ ∀ n, (scrollResult dom limit n).length ≤ limit := by
  constructor
  · cases k with
    | zero =>
      have hcl : clen = 0 := hzero rfl
      have h := scroll_stable_stops dom limit clen 5 0 (by omega)
        (fun j hj => hstab j (by omega)) rfl (by simp [scrollState, hcl]) (by simp [scrollState])
      simpa using h
    | succ k' =>
      by_cases hstop : (scrollState dom limit (k' + 1)).stopped = true
      · exact scroll_stopped_mono dom limit (k' + 1 + 5) (k' + 1) (by omega) hstop
      · have hstop' : (scrollState dom limit (k' + 1)).stopped = false := by
          simpa using hstop
        have hprev : (scrollState dom limit (k' + 1)).previousCount = clen := by
          rw [scroll_prev_of_progress dom limit k' hstop']
          exact hstab k' (by omega)
        exact scroll_stable_stops dom limit clen 5 (k' + 1) (by omega)
          (fun j hj => hstab j (by omega)) hstop' hprev (by omega)
  · intro n
    rw [scrollResult, List.length_take]
    exact Nat.min_le_left _ _

/-- Claim C4, witness: a constant one-link DOM stabilizes after the first
iteration (`k = 1`); the loop is exited after `1 + 5 = 6` iterations and
the result never exceeds the limit of 200. -/
theorem c4_witness_constant_dom :
    (scrollState (fun _ => ["http://a"]) 200 6).stopped = true
    ∧ ∀ n, (scrollResult (fun _ => ["http://a"]) 200 n).length ≤ 200 :=
  c4_scroll_terminates (fun _ => ["http://a"]) 200 1 1 (fun _ _ => rfl) (by omega)
